import Mathlib

/-!
Verification of the provider abstraction and normalization layer of the
text-service repository, as a shallow embedding of the two provider modules
(app/services/model_providers/aliyun.py and deepseek.py).

Python values occurring in request/response dictionaries are modelled by the
inductive type Value; Python floats are modelled by rationals, which is
faithful for the operations the code performs on them (comparison, min, max,
and literal construction). Python dicts are modelled as insertion-ordered
association lists with the dict update and delete semantics spelled out
explicitly.
-/

/-- Model of a Python value as it occurs in the request parameter mappings and
in parsed JSON payloads of the provider modules. -/
inductive Value where
  | vNone : Value
  | vBool (b : Bool) : Value
  | vInt (n : Int) : Value
  | vFloat (q : ℚ) : Value
  | vStr (s : String) : Value
  | vList (xs : List Value) : Value
  | vDict (d : List (String × Value)) : Value

/-- A Python dict with string keys, modelled as an insertion-ordered
association list. -/
abbrev Dict := List (String × Value)

/-- Python dict lookup: the value at the first (and in a genuine dict, only)
occurrence of the key. -/
def dlookup : Dict → String → Option Value
  | [], _ => none
  | (k, v) :: rest, key => if k = key then some v else dlookup rest key

/-- Python membership test for a dict key. -/
def dcontains (d : Dict) (k : String) : Bool :=
  (dlookup d k).isSome

/-- Python dict assignment: replace the value at an existing key in place,
or append a fresh key at the end (Python dicts preserve insertion order). -/
def dset : Dict → String → Value → Dict
  | [], key, val => [(key, val)]
  | (k, v) :: rest, key, val =>
    if k = key then (k, val) :: rest else (k, v) :: dset rest key val

/-- Python del statement on a dict: remove the entry at the key (the first
occurrence, which in a genuine dict is the only one). -/
def ddel : Dict → String → Dict
  | [], _ => []
  | (k, v) :: rest, key => if k = key then rest else (k, v) :: ddel rest key

/-- Python dict.get with a default. -/
def dgetD (d : Dict) (k : String) (dflt : Value) : Value :=
  (dlookup d k).getD dflt

/-- The keys of a dict, in order. -/
def keysD (d : Dict) : List String := d.map Prod.fst

/-- A genuine Python dict has no duplicate keys. -/
def NodupKeysD (d : Dict) : Prop := (keysD d).Nodup

/-- Python truthiness of a value, as used by bool(x) and by if-tests. -/
def truthy : Value → Bool
  | .vNone => false
  | .vBool b => b
  | .vInt n => decide (n ≠ 0)
  | .vFloat q => decide (q ≠ 0)
  | .vStr s => decide (s ≠ "")
  | .vList xs => !xs.isEmpty
  | .vDict d => !d.isEmpty

/-- Truncation of a rational toward zero, the behavior of Python int() on a
float. -/
def ratTruncToInt (q : ℚ) : Int := Int.tdiv q.num (Int.ofNat q.den)

/-- Python int(x) on a value: succeeds on bools, ints, floats (truncating
toward zero) and strings spelling an integer literal; raises (modelled as
none) otherwise. -/
def pyInt : Value → Option Int
  | .vBool b => some (if b then 1 else 0)
  | .vInt n => some n
  | .vFloat q => some (ratTruncToInt q)
  | .vStr s => s.toInt?
  | _ => none

/-- Parse a decimal float literal (optional minus sign, digits, optional
fractional part) into a rational; used to model Python float() on strings.
Exponent and infinity spellings are not modelled. -/
def parseFloatLit (s : String) : Option ℚ :=
  let neg := s.startsWith "-"
  let t := if neg then s.drop 1 else s
  let mag : Option ℚ :=
    match t.split (fun c => c == '.') with
    | [a] => (a.toNat?).map (fun n => (n : ℚ))
    | [a, b] =>
      match a.toNat?, b.toNat? with
      | some n, some f => some ((n : ℚ) + (f : ℚ) / ((10 : ℚ) ^ b.length))
      | _, _ => none
    | _ => none
  mag.map (fun q => if neg then -q else q)

/-- Python float(x) on a value: succeeds on bools, ints, floats and numeric
strings; raises (modelled as none) otherwise. -/
def pyFloat : Value → Option ℚ
  | .vBool b => some (if b then 1 else 0)
  | .vInt n => some (n : ℚ)
  | .vFloat q => some q
  | .vStr s => parseFloatLit s
  | _ => none

/-! ### Validation errors

The source raises ValueError with distinct messages at each raise site; the
specification names these cases UnsupportedModelError, MissingInputError and
InvalidParameterTypeError. The error type below carries the same data the
messages carry. -/

/-- Validation error, one constructor per raise site of validate_parameters. -/
inductive VError where
  | unsupportedModel (model : String) (supported : List String) : VError
  | missingInput : VError
  | invalidParameterType (field : String) : VError

/-! ### Provider model lists

The supported_models property reads settings.PROVIDER_SUPPORTED_MODELS (the
configuration collaborator, outside this repository slice) and falls back to a
hard-coded list; the configuration is modelled as an optional override. -/

/-- Hard-coded fallback model list of AliyunProvider.supported_models. -/
def aliyunDefaultModels : List String :=
  ["qwen-turbo", "qwen-plus", "qwen-max",
   "qwen3-235b-a22b", "qwen3-30b-a3b", "qwen-plus-latest",
   "qwen-turbo-latest", "qwen-vl-max", "qwen-vl-plus"]

/-- AliyunProvider.supported_models: configured list when the configuration
has an entry for aliyun, else the hard-coded fallback. -/
def aliyunSupportedModels (cfg : Option (List String)) : List String :=
  cfg.getD aliyunDefaultModels

/-- Hard-coded fallback model list of DeepSeekProvider.supported_models. -/
def deepseekDefaultModels : List String :=
  ["deepseek-chat", "deepseek-reasoner"]

/-- DeepSeekProvider.supported_models: configured list when the configuration
has an entry for deepseek, else the hard-coded fallback. -/
def deepseekSupportedModels (cfg : Option (List String)) : List String :=
  cfg.getD deepseekDefaultModels

/-! ### Per-field validation steps

Each numeric field of validate_parameters is handled by one statement block of
the form: if the key is present, convert and clamp it (conversion failure
raises); else possibly install a default. clampStep captures that shape. -/

/-- One numeric-field block of validate_parameters: on a present key, convert
the value with conv and store g of the result (conversion failure raises
InvalidParameterTypeError); on an absent key, store the default when one is
given, else leave the dict unchanged. -/
def clampStep {β : Type} (key : String) (conv : Value → Option β)
    (g : β → Value) (dflt : Option Value) (d : Dict) : Except VError Dict :=
  match dlookup d key with
  | some v =>
    match conv v with
    | some c => .ok (dset d key (g c))
    | none => .error (.invalidParameterType key)
  | none =>
    match dflt with
    | some dv => .ok (dset d key dv)
    | none => .ok d

/-- aliyun.py lines 67-70: max_tokens is capped at 6000 (no lower bound) and
defaults to 2048. -/
def stepMaxTokensA : Dict → Except VError Dict :=
  clampStep "max_tokens" pyInt (fun n => .vInt (min n 6000)) (some (.vInt 2048))

/-- aliyun.py lines 73-76: temperature is clamped to the interval from 0.0 to
1.0 and defaults to 0.7 (written mkRat 7 10 here). -/
def stepTemperatureA : Dict → Except VError Dict :=
  clampStep "temperature" pyFloat (fun q => .vFloat (max 0 (min q 1)))
    (some (.vFloat (mkRat 7 10)))

/-- aliyun.py lines 79-82: top_p is clamped to the interval from 0.0 to 1.0
and defaults to 0.9 (written mkRat 9 10 here). -/
def stepTopPA : Dict → Except VError Dict :=
  clampStep "top_p" pyFloat (fun q => .vFloat (max 0 (min q 1)))
    (some (.vFloat (mkRat 9 10)))

/-- aliyun.py lines 85-86: top_k, when present, is clamped to the interval
from 1 to 100; no default is installed. -/
def stepTopKA : Dict → Except VError Dict :=
  clampStep "top_k" pyInt (fun n => .vInt (max 1 (min n 100))) none

/-- aliyun.py lines 95-96: seed, when present, is coerced to an integer; no
default is installed. -/
def stepSeedA : Dict → Except VError Dict :=
  clampStep "seed" pyInt (fun n => .vInt n) none

/-- aliyun.py lines 89-92 and deepseek.py lines 85-88 (identical code in both
providers): stream is coerced with bool() when present and defaults to
False. -/
def stepStream (d : Dict) : Dict :=
  match dlookup d "stream" with
  | some v => dset d "stream" (.vBool (truthy v))
  | none => dset d "stream" (.vBool false)

/-- aliyun.py lines 99-100: enable_thinking defaults to False when absent and
is left untouched (whatever its value) when present. -/
def stepEnableThinkingA (d : Dict) : Dict :=
  if dcontains d "enable_thinking" then d else dset d "enable_thinking" (.vBool false)

/-- aliyun.py lines 56-62: if messages is given in the caller parameters it is
stored verbatim; otherwise a present prompt is wrapped into a single user-role
message. The prompt key is not deleted by the Aliyun provider. -/
def stepMessagesA (parameters validated : Dict) : Dict :=
  match dlookup parameters "messages" with
  | some m => dset validated "messages" m
  | none =>
    match dlookup parameters "prompt" with
    | some p =>
      dset validated "messages"
        (.vList [.vDict [("role", .vStr "user"), ("content", p)]])
    | none => validated

/-- deepseek.py lines 52-61: like the Aliyun message step, but after wrapping
a prompt the now-redundant prompt key is deleted from the validated dict. -/
def stepMessagesD (parameters validated : Dict) : Dict :=
  match dlookup parameters "messages" with
  | some m => dset validated "messages" m
  | none =>
    match dlookup parameters "prompt" with
    | some p =>
      let v2 := dset validated "messages"
        (.vList [.vDict [("role", .vStr "user"), ("content", p)]])
      if dcontains v2 "prompt" then ddel v2 "prompt" else v2
    | none => validated

/-- deepseek.py lines 66-70: max_tokens is capped at 32768 (no lower bound)
and defaults to 4096. -/
def stepMaxTokensD : Dict → Except VError Dict :=
  clampStep "max_tokens" pyInt (fun n => .vInt (min n 32768)) (some (.vInt 4096))

/-- deepseek.py lines 73-76: for models other than deepseek-reasoner,
temperature is clamped to the interval from 0.0 to 2.0 when present and
defaults to 0.7; for deepseek-reasoner neither branch fires, so a present
temperature is retained unchanged and an absent one stays absent. -/
def stepTemperatureD (model : String) (d : Dict) : Except VError Dict :=
  match dlookup d "temperature" with
  | some v =>
    if model ≠ "deepseek-reasoner" then
      match pyFloat v with
      | some q => .ok (dset d "temperature" (.vFloat (max 0 (min q 2))))
      | none => .error (.invalidParameterType "temperature")
    else .ok d
  | none =>
    if model ≠ "deepseek-reasoner" then
      .ok (dset d "temperature" (.vFloat (mkRat 7 10)))
    else .ok d

/-- deepseek.py lines 79-82: for models other than deepseek-reasoner, top_p is
clamped to the interval from 0.0 to 1.0 when present and defaults to 0.9; for
deepseek-reasoner the field passes through untouched. -/
def stepTopPD (model : String) (d : Dict) : Except VError Dict :=
  match dlookup d "top_p" with
  | some v =>
    if model ≠ "deepseek-reasoner" then
      match pyFloat v with
      | some q => .ok (dset d "top_p" (.vFloat (max 0 (min q 1))))
      | none => .error (.invalidParameterType "top_p")
    else .ok d
  | none =>
    if model ≠ "deepseek-reasoner" then
      .ok (dset d "top_p" (.vFloat (mkRat 9 10)))
    else .ok d

/-! ### The validate_parameters bodies

The caller-supplied dict and the validated dict are distinct Python objects
(validated = parameters.copy()); to make the frame property expressible, the
body is embedded as a transformer of a two-object state in which every
assignment of the source targets the validated component, mirroring that
every write of the source targets the validated dict. -/

/-- The two dict objects alive inside validate_parameters: the caller-supplied
parameters dict and the local validated dict. -/
structure PState where
  parameters : Dict
  validated : Dict

/-- Run one fallible field step against the validated component, propagating a
raise; the caller-supplied parameters component is never written. -/
def seqV (f : Dict → Except VError Dict)
    (k : PState → PState × Option VError) (s : PState) : PState × Option VError :=
  match f s.validated with
  | .ok d => k ⟨s.parameters, d⟩
  | .error e => (s, some e)

/-- AliyunProvider.validate_parameters (aliyun.py lines 29-102) as a state
transformer: returns the final two-object state together with the raised
error, if any. -/
def runValidateA (cfg : Option (List String)) (model : String) (s : PState) :
    PState × Option VError :=
  if ((aliyunSupportedModels cfg).contains model) = false then
    (s, some (.unsupportedModel model (aliyunSupportedModels cfg)))
  else if (dcontains s.parameters "prompt" || dcontains s.parameters "messages") = false then
    (s, some .missingInput)
  else
    let s1 : PState := ⟨s.parameters, s.parameters⟩
    let s2 : PState := ⟨s1.parameters, dset s1.validated "model" (.vStr model)⟩
    let s3 : PState := ⟨s2.parameters, stepMessagesA s2.parameters s2.validated⟩
    seqV stepMaxTokensA
      (seqV stepTemperatureA
        (seqV stepTopPA
          (seqV stepTopKA (fun s4 =>
            let s5 : PState := ⟨s4.parameters, stepStream s4.validated⟩
            seqV stepSeedA (fun s6 =>
              let s7 : PState := ⟨s6.parameters, stepEnableThinkingA s6.validated⟩
              (s7, none)) s5)))) s3

/-- DeepSeekProvider.validate_parameters (deepseek.py lines 25-93) as a state
transformer. -/
def runValidateD (cfg : Option (List String)) (model : String) (s : PState) :
    PState × Option VError :=
  if ((deepseekSupportedModels cfg).contains model) = false then
    (s, some (.unsupportedModel model (deepseekSupportedModels cfg)))
  else if (dcontains s.parameters "prompt" || dcontains s.parameters "messages") = false then
    (s, some .missingInput)
  else
    let s1 : PState := ⟨s.parameters, s.parameters⟩
    let s2 : PState := ⟨s1.parameters, dset s1.validated "model" (.vStr model)⟩
    let s3 : PState := ⟨s2.parameters, stepMessagesD s2.parameters s2.validated⟩
    seqV stepMaxTokensD
      (seqV (stepTemperatureD model)
        (seqV (stepTopPD model) (fun s4 =>
          let s5 : PState := ⟨s4.parameters, stepStream s4.validated⟩
          (s5, none)))) s3

/-- Turn the final state of a validate_parameters run into its return value:
the validated dict on a clean run, the raised error otherwise. -/
def resultOf (r : PState × Option VError) : Except VError Dict :=
  match r.2 with
  | none => .ok r.1.validated
  | some e => .error e

/-- AliyunProvider.validate_parameters as a function from the caller
parameters to the validated parameters or the raised error. -/
def aliyunValidate (cfg : Option (List String)) (model : String)
    (parameters : Dict) : Except VError Dict :=
  resultOf (runValidateA cfg model ⟨parameters, []⟩)

/-- DeepSeekProvider.validate_parameters as a function from the caller
parameters to the validated parameters or the raised error. -/
def deepseekValidate (cfg : Option (List String)) (model : String)
    (parameters : Dict) : Except VError Dict :=
  resultOf (runValidateD cfg model ⟨parameters, []⟩)

/-- The clean-run behavior of the Aliyun validate_parameters body after the
two leading error checks, as one sequential pipeline over the validated
dict. -/
def aliyunPipeline (p : Dict) (model : String) : Except VError Dict :=
  match stepMaxTokensA (stepMessagesA p (dset p "model" (.vStr model))) with
  | .error e => .error e
  | .ok v1 =>
    match stepTemperatureA v1 with
    | .error e => .error e
    | .ok v2 =>
      match stepTopPA v2 with
      | .error e => .error e
      | .ok v3 =>
        match stepTopKA v3 with
        | .error e => .error e
        | .ok v4 =>
          match stepSeedA (stepStream v4) with
          | .error e => .error e
          | .ok v5 => .ok (stepEnableThinkingA v5)

/-- The corresponding pipeline for the DeepSeek validate_parameters body. -/
def deepseekPipeline (p : Dict) (model : String) : Except VError Dict :=
  match stepMaxTokensD (stepMessagesD p (dset p "model" (.vStr model))) with
  | .error e => .error e
  | .ok v1 =>
    match stepTemperatureD model v1 with
    | .error e => .error e
    | .ok v2 =>
      match stepTopPD model v2 with
      | .error e => .error e
      | .ok v3 => .ok (stepStream v3)

/-! ### Aliyun response normalization (aliyun.py _format_response)

The source reads fields of the parsed JSON payload with dict indexing and
iteration, which in Python raises a TypeError when a field that must be a
dict or a list has another shape; the coercions below return a dummy value
in that case, so universally quantified theorems about the normalizer carry a
well-shapedness hypothesis (aliyunPayloadOk) restricting them to payloads on
which the source runs without such a type error. The two non-deterministic
ingredients of the source, str(uuid.uuid4()) and datetime.now().strftime(...),
are passed in as the freshId and nowStr arguments. -/

/-- Coerce a value expected to be a dict. -/
def asDict : Value → Dict
  | .vDict d => d
  | _ => []

/-- Coerce a value expected to be a list. -/
def asList : Value → List Value
  | .vList xs => xs
  | _ => []

/-- aliyun.py lines 226-240: one element of the choices loop, at enumeration
index i: role is always assistant, content comes from the choice's message
(empty string default), finish_reason defaults to stop, and tool_calls is
copied through when the choice's message has one. -/
def aliyunChoiceOfListItem (i : Nat) (choice : Value) : Value :=
  let c := asDict choice
  let msg := asDict (dgetD c "message" (.vDict []))
  let msgOut : Dict :=
    [("role", .vStr "assistant"), ("content", dgetD msg "content" (.vStr ""))]
  let msgOut :=
    match dlookup msg "tool_calls" with
    | some tc => dset msgOut "tool_calls" tc
    | none => msgOut
  .vDict [("index", .vInt (Int.ofNat i)), ("message", .vDict msgOut),
    ("finish_reason", dgetD c "finish_reason" (.vStr "stop"))]

/-- AliyunProvider._format_response (aliyun.py lines 192-251). -/
def aliyunFormatResponse (apiResponse : Dict) (originalParams : Dict)
    (freshId nowStr : String) : Dict :=
  let output := asDict (dgetD apiResponse "output" (.vDict []))
  let choices : List Value :=
    if dcontains output "text" then
      [ .vDict [("index", .vInt 0),
          ("message", .vDict [("role", .vStr "assistant"),
            ("content", dgetD output "text" (.vStr ""))]),
          ("finish_reason", dgetD output "finish_reason" (.vStr "stop"))] ]
    else if dcontains output "choices" then
      (asList (dgetD output "choices" (.vList []))).enum.map
        (fun ic => aliyunChoiceOfListItem ic.1 ic.2)
    else []
  let usage := dgetD apiResponse "usage" (.vDict [])
  let usageOut : Dict :=
    if truthy usage then
      [("prompt_tokens", dgetD (asDict usage) "input_tokens" (.vInt 0)),
       ("completion_tokens", dgetD (asDict usage) "output_tokens" (.vInt 0)),
       ("total_tokens", dgetD (asDict usage) "total_tokens" (.vInt 0))]
    else []
  [("id", dgetD apiResponse "request_id" (.vStr freshId)),
   ("model", dgetD originalParams "model" (.vStr "")),
   ("created", .vStr nowStr),
   ("choices", .vList choices),
   ("usage", .vDict usageOut)]

/-- Well-shapedness of an Aliyun payload: the output field, when present, is a
dict; its choices field, when present, is a list of dicts whose message
field, when present, is a dict; and the usage field, when present, is a dict.
On payloads outside this set the source normalizer raises a TypeError. -/
def aliyunPayloadOk (payload : Dict) : Prop :=
  (match dlookup payload "output" with
   | none => True
   | some (.vDict od) =>
     (match dlookup od "choices" with
      | none => True
      | some (.vList cs) => ∀ c ∈ cs,
          (match c with
           | .vDict cd =>
             (match dlookup cd "message" with
              | none => True
              | some (.vDict _) => True
              | some _ => False)
           | _ => False)
      | some _ => False)
   | some _ => False) ∧
  (match dlookup payload "usage" with
   | none => True
   | some (.vDict _) => True
   | some _ => False)

/-! ### DeepSeek response normalization (deepseek.py call_model lines 130-172)

The DeepSeek provider receives a typed client response object (an OpenAI SDK
object), not a parsed JSON dict; it is modelled by the structures below. A
missing or None attribute is modelled as none in the corresponding Option
field (the source guards attribute access with hasattr and truthiness
tests). -/

/-- The function_call attribute of a response message. -/
structure DSFunctionCall where
  name : String
  arguments : String

/-- A response message of the DeepSeek client response. -/
structure DSMessage where
  role : String
  content : Value
  reasoning_content : Option Value
  function_call : Option DSFunctionCall

/-- One choice of the DeepSeek client response. -/
structure DSChoice where
  index : Int
  message : DSMessage
  finish_reason : Value

/-- The usage attribute of the DeepSeek client response; none models both an
absent attribute and a None value. -/
structure DSUsage where
  prompt_tokens : Int
  completion_tokens : Int
  total_tokens : Int

/-- The DeepSeek client response object. -/
structure DSResponse where
  id : String
  object : String
  model : String
  choices : List DSChoice
  usage : Option DSUsage

/-- deepseek.py lines 140-162: one element of the choices loop; the
reasoning_content attribute is copied only for the deepseek-reasoner model,
and a present, truthy function_call is copied as a two-field dict. -/
def deepseekChoiceData (model : String) (choice : DSChoice) : Value :=
  let msgOut : Dict :=
    [("role", .vStr choice.message.role), ("content", choice.message.content)]
  let msgOut :=
    if model = "deepseek-reasoner" then
      match choice.message.reasoning_content with
      | some rc => dset msgOut "reasoning_content" rc
      | none => msgOut
    else msgOut
  let msgOut :=
    match choice.message.function_call with
    | some fc => dset msgOut "function_call"
        (.vDict [("name", .vStr fc.name), ("arguments", .vStr fc.arguments)])
    | none => msgOut
  .vDict [("index", .vInt choice.index), ("message", .vDict msgOut),
    ("finish_reason", choice.finish_reason)]

/-- deepseek.py lines 131-172: the normalized result dict built from the
client response; the usage key is written only when the response has a
usage attribute that is truthy. -/
def deepseekFormatResult (model : String) (resp : DSResponse) (nowStr : String) : Dict :=
  let base : Dict :=
    [("id", .vStr resp.id), ("object", .vStr resp.object),
     ("created", .vStr nowStr), ("model", .vStr resp.model),
     ("choices", .vList (resp.choices.map (deepseekChoiceData model)))]
  match resp.usage with
  | some u => dset base "usage"
      (.vDict [("prompt_tokens", .vInt u.prompt_tokens),
        ("completion_tokens", .vInt u.completion_tokens),
        ("total_tokens", .vInt u.total_tokens)])
  | none => base

/-- The known core parameter keys handled specially by the validators. -/
def coreParamKeys : List String :=
  ["model", "messages", "prompt", "max_tokens", "temperature", "top_p", "top_k",
   "stream", "seed", "enable_thinking"]

/-! ### Dict lemmas -/

theorem dlookup_cons_self (k : String) (v : Value) (d : Dict) :
    dlookup ((k, v) :: d) k = some v := by
  simp [dlookup]

theorem dlookup_cons_ne (k key : String) (v : Value) (d : Dict) (h : k ≠ key) :
    dlookup ((k, v) :: d) key = dlookup d key := by
  simp [dlookup, h]

theorem dlookup_dset_self (d : Dict) (k : String) (v : Value) :
    dlookup (dset d k v) k = some v := by
  induction d with
  | nil => simp [dset, dlookup]
  | cons hd tl ih =>
    obtain ⟨k0, v0⟩ := hd
    by_cases hk : k0 = k
    · subst hk; simp [dset, dlookup]
    · simp [dset, dlookup, hk, ih]

theorem dlookup_dset_ne (d : Dict) (k key : String) (v : Value) (h : k ≠ key) :
    dlookup (dset d k v) key = dlookup d key := by
  induction d with
  | nil => simp [dset, dlookup, h]
  | cons hd tl ih =>
    obtain ⟨k0, v0⟩ := hd
    by_cases hk : k0 = k
    · subst hk; simp [dset, dlookup, h]
    · simp [dset, dlookup, hk, ih]

theorem dlookup_ddel_ne (d : Dict) (k key : String) (h : k ≠ key) :
    dlookup (ddel d k) key = dlookup d key := by
  induction d with
  | nil => simp [ddel]
  | cons hd tl ih =>
    obtain ⟨k0, v0⟩ := hd
    by_cases hk : k0 = k
    · subst hk; simp [ddel, dlookup, h]
    · simp [ddel, dlookup, hk, ih]

theorem keysD_cons (k : String) (v : Value) (d : Dict) :
    keysD ((k, v) :: d) = k :: keysD d := rfl

theorem nodupKeysD_cons (k : String) (v : Value) (d : Dict) :
    NodupKeysD ((k, v) :: d) ↔ k ∉ keysD d ∧ NodupKeysD d := by
  simp [NodupKeysD, keysD_cons, List.nodup_cons]

theorem dlookup_eq_none_of_not_mem (d : Dict) (k : String) (h : k ∉ keysD d) :
    dlookup d k = none := by
  induction d with
  | nil => rfl
  | cons hd tl ih =>
    obtain ⟨k0, v0⟩ := hd
    rw [keysD_cons, List.mem_cons] at h
    push_neg at h
    rw [dlookup_cons_ne _ _ _ _ (fun he => h.1 he.symm)]
    exact ih h.2

theorem mem_keysD_dset (d : Dict) (k key : String) (v : Value)
    (h : key ∈ keysD (dset d k v)) : key ∈ keysD d ∨ key = k := by
  induction d with
  | nil =>
    rw [show dset [] k v = [(k, v)] from rfl, keysD_cons, List.mem_cons] at h
    rcases h with h | h
    · exact Or.inr h
    · simp [keysD] at h
  | cons hd tl ih =>
    obtain ⟨k0, v0⟩ := hd
    by_cases hk : k0 = k
    · subst hk
      rw [show dset ((k0, v0) :: tl) k0 v = (k0, v) :: tl by simp [dset],
        keysD_cons, List.mem_cons] at h
      rcases h with h | h
      · exact Or.inr h
      · exact Or.inl (by rw [keysD_cons, List.mem_cons]; exact Or.inr h)
    · rw [show dset ((k0, v0) :: tl) k v = (k0, v0) :: dset tl k v by
        simp [dset, hk], keysD_cons, List.mem_cons] at h
      rcases h with h | h
      · exact Or.inl (by rw [keysD_cons, List.mem_cons]; exact Or.inl h)
      · rcases ih h with h2 | h2
        · exact Or.inl (by rw [keysD_cons, List.mem_cons]; exact Or.inr h2)
        · exact Or.inr h2

theorem nodup_dset (d : Dict) (k : String) (v : Value) (h : NodupKeysD d) :
    NodupKeysD (dset d k v) := by
  induction d with
  | nil => simp [NodupKeysD, dset, keysD]
  | cons hd tl ih =>
    obtain ⟨k0, v0⟩ := hd
    rw [nodupKeysD_cons] at h
    by_cases hk : k0 = k
    · subst hk
      rw [show dset ((k0, v0) :: tl) k0 v = (k0, v) :: tl by simp [dset]]
      exact (nodupKeysD_cons _ _ _).mpr h
    · rw [show dset ((k0, v0) :: tl) k v = (k0, v0) :: dset tl k v by
        simp [dset, hk]]
      refine (nodupKeysD_cons _ _ _).mpr ⟨fun hm => ?_, ih h.2⟩
      rcases mem_keysD_dset tl k k0 v hm with h2 | h2
      · exact h.1 h2
      · exact hk h2

theorem dlookup_ddel_self (d : Dict) (k : String) (h : NodupKeysD d) :
    dlookup (ddel d k) k = none := by
  induction d with
  | nil => rfl
  | cons hd tl ih =>
    obtain ⟨k0, v0⟩ := hd
    rw [nodupKeysD_cons] at h
    by_cases hk : k0 = k
    · subst hk
      rw [show ddel ((k0, v0) :: tl) k0 = tl by simp [ddel]]
      exact dlookup_eq_none_of_not_mem tl k0 h.1
    · rw [show ddel ((k0, v0) :: tl) k = (k0, v0) :: ddel tl k by simp [ddel, hk],
        dlookup_cons_ne _ _ _ _ hk]
      exact ih h.2

/-! ### Pipeline form of the validate_parameters bodies -/

theorem resultOf_none (s : PState) : resultOf (s, none) = .ok s.validated := rfl

theorem resultOf_some (s : PState) (e : VError) : resultOf (s, some e) = .error e := rfl

theorem seqV_ok {f : Dict → Except VError Dict} {k : PState → PState × Option VError}
    {s : PState} {d : Dict} (h : f s.validated = .ok d) :
    seqV f k s = k ⟨s.parameters, d⟩ := by
  unfold seqV; rw [h]

theorem seqV_error {f : Dict → Except VError Dict} {k : PState → PState × Option VError}
    {s : PState} {e : VError} (h : f s.validated = .error e) :
    seqV f k s = (s, some e) := by
  unfold seqV; rw [h]

theorem aliyunValidate_eq (cfg : Option (List String)) (model : String) (p : Dict) :
    aliyunValidate cfg model p =
      if ((aliyunSupportedModels cfg).contains model) = false then
        .error (.unsupportedModel model (aliyunSupportedModels cfg))
      else if (dcontains p "prompt" || dcontains p "messages") = false then
        .error .missingInput
      else aliyunPipeline p model := by
  unfold aliyunValidate runValidateA
  cases hb1 : (aliyunSupportedModels cfg).contains model with
  | false => rfl
  | true =>
    cases hb2 : dcontains p "prompt" || dcontains p "messages" with
    | false => rfl
    | true =>
      simp only [Bool.true_eq_false, if_false]
      unfold aliyunPipeline
      cases hs1 : stepMaxTokensA (stepMessagesA p (dset p "model" (.vStr model))) with
      | error e => rw [seqV_error hs1]; rfl
      | ok v1 =>
        rw [seqV_ok hs1]
        dsimp only
        cases hs2 : stepTemperatureA v1 with
        | error e => rw [seqV_error hs2]; rfl
        | ok v2 =>
          rw [seqV_ok hs2]
          dsimp only
          cases hs3 : stepTopPA v2 with
          | error e => rw [seqV_error hs3]; rfl
          | ok v3 =>
            rw [seqV_ok hs3]
            dsimp only
            cases hs4 : stepTopKA v3 with
            | error e => rw [seqV_error hs4]; rfl
            | ok v4 =>
              rw [seqV_ok hs4]
              dsimp only
              cases hs5 : stepSeedA (stepStream v4) with
              | error e => rw [seqV_error hs5]; rfl
              | ok v5 => rw [seqV_ok hs5]; rfl

theorem deepseekValidate_eq (cfg : Option (List String)) (model : String) (p : Dict) :
    deepseekValidate cfg model p =
      if ((deepseekSupportedModels cfg).contains model) = false then
        .error (.unsupportedModel model (deepseekSupportedModels cfg))
      else if (dcontains p "prompt" || dcontains p "messages") = false then
        .error .missingInput
      else deepseekPipeline p model := by
  unfold deepseekValidate runValidateD
  cases hb1 : (deepseekSupportedModels cfg).contains model with
  | false => rfl
  | true =>
    cases hb2 : dcontains p "prompt" || dcontains p "messages" with
    | false => rfl
    | true =>
      simp only [Bool.true_eq_false, if_false]
      unfold deepseekPipeline
      cases hs1 : stepMaxTokensD (stepMessagesD p (dset p "model" (.vStr model))) with
      | error e => rw [seqV_error hs1]; rfl
      | ok v1 =>
        rw [seqV_ok hs1]
        dsimp only
        cases hs2 : stepTemperatureD model v1 with
        | error e => rw [seqV_error hs2]; rfl
        | ok v2 =>
          rw [seqV_ok hs2]
          dsimp only
          cases hs3 : stepTopPD model v2 with
          | error e => rw [seqV_error hs3]; rfl
          | ok v3 => rw [seqV_ok hs3]; rfl

/-! ### Step lemmas -/

theorem clampStep_ok_spec {β : Type} {key : String} {conv : Value → Option β}
    {g : β → Value} {dflt : Option Value} {d d' : Dict}
    (h : clampStep key conv g dflt d = .ok d') :
    (∃ v c, dlookup d key = some v ∧ conv v = some c ∧ d' = dset d key (g c)) ∨
    (dlookup d key = none ∧
      ((∃ dv, dflt = some dv ∧ d' = dset d key dv) ∨ (dflt = none ∧ d' = d))) := by
  unfold clampStep at h
  split at h
  · rename_i v heq
    split at h
    · rename_i c hc
      cases h
      exact Or.inl ⟨v, c, heq, hc, rfl⟩
    · cases h
  · rename_i heq
    split at h
    · rename_i dv
      cases h
      exact Or.inr ⟨heq, Or.inl ⟨dv, rfl, rfl⟩⟩
    · cases h
      exact Or.inr ⟨heq, Or.inr ⟨rfl, rfl⟩⟩

theorem clampStep_ok_lookup_ne {β : Type} {key : String} {conv : Value → Option β}
    {g : β → Value} {dflt : Option Value} {d d' : Dict} {other : String}
    (h : clampStep key conv g dflt d = .ok d') (hne : key ≠ other) :
    dlookup d' other = dlookup d other := by
  rcases clampStep_ok_spec h with ⟨v, c, _, _, hd'⟩ | ⟨_, ⟨dv, _, hd'⟩ | ⟨_, hd'⟩⟩ <;>
    subst hd'
  · exact dlookup_dset_ne _ _ _ _ hne
  · exact dlookup_dset_ne _ _ _ _ hne
  · rfl

theorem clampStep_ok_of_conv {β : Type} {key : String} {conv : Value → Option β}
    {g : β → Value} {dflt : Option Value} {d : Dict}
    (h : ∀ x, dlookup d key = some x → (conv x).isSome = true) :
    ∃ d', clampStep key conv g dflt d = .ok d' := by
  cases hl : dlookup d key with
  | some v =>
    cases hc : conv v with
    | some c => exact ⟨dset d key (g c), by simp [clampStep, hl, hc]⟩
    | none =>
      have := h v hl
      rw [hc] at this
      cases this
  | none =>
    cases hd : dflt with
    | some dv => exact ⟨dset d key dv, by simp [clampStep, hl, hd]⟩
    | none => exact ⟨d, by simp [clampStep, hl, hd]⟩

theorem stepStream_lookup_ne (d : Dict) (other : String) (hne : "stream" ≠ other) :
    dlookup (stepStream d) other = dlookup d other := by
  unfold stepStream
  cases dlookup d "stream" <;> exact dlookup_dset_ne _ _ _ _ hne

theorem stepEnableThinkingA_lookup_ne (d : Dict) (other : String)
    (hne : "enable_thinking" ≠ other) :
    dlookup (stepEnableThinkingA d) other = dlookup d other := by
  unfold stepEnableThinkingA
  split
  · rfl
  · exact dlookup_dset_ne _ _ _ _ hne

theorem stepMessagesA_lookup_ne (p v : Dict) (other : String)
    (hne : "messages" ≠ other) :
    dlookup (stepMessagesA p v) other = dlookup v other := by
  unfold stepMessagesA
  cases dlookup p "messages" with
  | some m => exact dlookup_dset_ne _ _ _ _ hne
  | none =>
    cases dlookup p "prompt" with
    | some q => exact dlookup_dset_ne _ _ _ _ hne
    | none => rfl

theorem stepMessagesD_lookup_ne (p v : Dict) (other : String)
    (hne1 : "messages" ≠ other) (hne2 : "prompt" ≠ other) :
    dlookup (stepMessagesD p v) other = dlookup v other := by
  unfold stepMessagesD
  cases dlookup p "messages" with
  | some m => exact dlookup_dset_ne _ _ _ _ hne1
  | none =>
    cases dlookup p "prompt" with
    | some q =>
      dsimp only
      split
      · rw [dlookup_ddel_ne _ _ _ hne2]
        exact dlookup_dset_ne _ _ _ _ hne1
      · exact dlookup_dset_ne _ _ _ _ hne1
    | none => rfl

theorem stepTemperatureD_reasoner (d : Dict) :
    stepTemperatureD "deepseek-reasoner" d = .ok d := by
  unfold stepTemperatureD
  cases dlookup d "temperature" <;> simp

theorem stepTopPD_reasoner (d : Dict) :
    stepTopPD "deepseek-reasoner" d = .ok d := by
  unfold stepTopPD
  cases dlookup d "top_p" <;> simp

theorem aliyunPipeline_ok_inv {p : Dict} {model : String} {v : Dict}
    (h : aliyunPipeline p model = .ok v) :
    ∃ v1 v2 v3 v4 v5,
      stepMaxTokensA (stepMessagesA p (dset p "model" (.vStr model))) = .ok v1 ∧
      stepTemperatureA v1 = .ok v2 ∧ stepTopPA v2 = .ok v3 ∧
      stepTopKA v3 = .ok v4 ∧ stepSeedA (stepStream v4) = .ok v5 ∧
      v = stepEnableThinkingA v5 := by
  unfold aliyunPipeline at h
  split at h
  · cases h
  · rename_i v1 h1
    split at h
    · cases h
    · rename_i v2 h2
      split at h
      · cases h
      · rename_i v3 h3
        split at h
        · cases h
        · rename_i v4 h4
          split at h
          · cases h
          · rename_i v5 h5
            cases h
            exact ⟨v1, v2, v3, v4, v5, h1, h2, h3, h4, h5, rfl⟩

theorem deepseekPipeline_ok_inv {p : Dict} {model : String} {v : Dict}
    (h : deepseekPipeline p model = .ok v) :
    ∃ v1 v2 v3,
      stepMaxTokensD (stepMessagesD p (dset p "model" (.vStr model))) = .ok v1 ∧
      stepTemperatureD model v1 = .ok v2 ∧ stepTopPD model v2 = .ok v3 ∧
      v = stepStream v3 := by
  unfold deepseekPipeline at h
  split at h
  · cases h
  · rename_i v1 h1
    split at h
    · cases h
    · rename_i v2 h2
      split at h
      · cases h
      · rename_i v3 h3
        cases h
        exact ⟨v1, v2, v3, h1, h2, h3, rfl⟩

/-! ### Field bounds established by the individual steps -/

theorem stepTemperatureA_bound {d d' : Dict} (h : stepTemperatureA d = .ok d') :
    ∃ t : ℚ, dlookup d' "temperature" = some (.vFloat t) ∧ 0 ≤ t ∧ t ≤ 1 := by
  rcases clampStep_ok_spec h with ⟨v, c, hl, hc, hd'⟩ | ⟨hl, ⟨dv, hdf, hd'⟩ | ⟨hdf, hd'⟩⟩
  · subst hd'
    exact ⟨max 0 (min c 1), dlookup_dset_self _ _ _, le_max_left _ _,
      max_le (by norm_num) (min_le_right _ _)⟩
  · obtain rfl : Value.vFloat (mkRat 7 10) = dv := by injection hdf
    subst hd'
    exact ⟨mkRat 7 10, dlookup_dset_self _ _ _, by decide, by decide⟩
  · cases hdf

theorem stepTopPA_bound {d d' : Dict} (h : stepTopPA d = .ok d') :
    ∃ t : ℚ, dlookup d' "top_p" = some (.vFloat t) ∧ 0 ≤ t ∧ t ≤ 1 := by
  rcases clampStep_ok_spec h with ⟨v, c, hl, hc, hd'⟩ | ⟨hl, ⟨dv, hdf, hd'⟩ | ⟨hdf, hd'⟩⟩
  · subst hd'
    exact ⟨max 0 (min c 1), dlookup_dset_self _ _ _, le_max_left _ _,
      max_le (by norm_num) (min_le_right _ _)⟩
  · obtain rfl : Value.vFloat (mkRat 9 10) = dv := by injection hdf
    subst hd'
    exact ⟨mkRat 9 10, dlookup_dset_self _ _ _, by decide, by decide⟩
  · cases hdf

theorem stepMaxTokensA_bound {d d' : Dict} (h : stepMaxTokensA d = .ok d') :
    ∃ n : Int, dlookup d' "max_tokens" = some (.vInt n) ∧ n ≤ 6000 := by
  rcases clampStep_ok_spec h with ⟨v, c, hl, hc, hd'⟩ | ⟨hl, ⟨dv, hdf, hd'⟩ | ⟨hdf, hd'⟩⟩
  · subst hd'
    exact ⟨min c 6000, dlookup_dset_self _ _ _, min_le_right _ _⟩
  · obtain rfl : Value.vInt 2048 = dv := by injection hdf
    subst hd'
    exact ⟨2048, dlookup_dset_self _ _ _, by decide⟩
  · cases hdf

theorem stepMaxTokensD_bound {d d' : Dict} (h : stepMaxTokensD d = .ok d') :
    ∃ n : Int, dlookup d' "max_tokens" = some (.vInt n) ∧ n ≤ 32768 := by
  rcases clampStep_ok_spec h with ⟨v, c, hl, hc, hd'⟩ | ⟨hl, ⟨dv, hdf, hd'⟩ | ⟨hdf, hd'⟩⟩
  · subst hd'
    exact ⟨min c 32768, dlookup_dset_self _ _ _, min_le_right _ _⟩
  · obtain rfl : Value.vInt 4096 = dv := by injection hdf
    subst hd'
    exact ⟨4096, dlookup_dset_self _ _ _, by decide⟩
  · cases hdf

theorem stepTopKA_bound {d d' : Dict} (h : stepTopKA d = .ok d') :
    ∀ x, dlookup d' "top_k" = some x → ∃ n : Int, x = .vInt n ∧ 1 ≤ n ∧ n ≤ 100 := by
  intro x hx
  rcases clampStep_ok_spec h with ⟨v, c, hl, hc, hd'⟩ | ⟨hl, ⟨dv, hdf, hd'⟩ | ⟨hdf, hd'⟩⟩
  · subst hd'
    rw [dlookup_dset_self] at hx
    refine ⟨max 1 (min c 100), ?_, le_max_left _ _,
      max_le (by norm_num) (min_le_right _ _)⟩
    injection hx with hx
    exact hx.symm
  · cases hdf
  · subst hd'
    rw [hl] at hx
    cases hx

theorem stepTemperatureD_ok_lookup_ne {model : String} {d d' : Dict} {other : String}
    (h : stepTemperatureD model d = .ok d') (hne : "temperature" ≠ other) :
    dlookup d' other = dlookup d other := by
  unfold stepTemperatureD at h
  split at h
  · split at h
    · split at h
      · cases h; exact dlookup_dset_ne _ _ _ _ hne
      · cases h
    · cases h; rfl
  · split at h
    · cases h; exact dlookup_dset_ne _ _ _ _ hne
    · cases h; rfl

theorem stepTopPD_ok_lookup_ne {model : String} {d d' : Dict} {other : String}
    (h : stepTopPD model d = .ok d') (hne : "top_p" ≠ other) :
    dlookup d' other = dlookup d other := by
  unfold stepTopPD at h
  split at h
  · split at h
    · split at h
      · cases h; exact dlookup_dset_ne _ _ _ _ hne
      · cases h
    · cases h; rfl
  · split at h
    · cases h; exact dlookup_dset_ne _ _ _ _ hne
    · cases h; rfl

theorem stepTemperatureD_bound {model : String} {d d' : Dict}
    (h : stepTemperatureD model d = .ok d') (hm : model ≠ "deepseek-reasoner") :
    ∃ t : ℚ, dlookup d' "temperature" = some (.vFloat t) ∧ 0 ≤ t ∧ t ≤ 2 := by
  unfold stepTemperatureD at h
  split at h
  · split at h
    · split at h
      · rename_i q hq
        cases h
        exact ⟨max 0 (min q 2), dlookup_dset_self _ _ _, le_max_left _ _,
          max_le (by norm_num) (min_le_right _ _)⟩
      · cases h
    · rename_i hm2
      exact absurd hm (by simpa using hm2)
  · split at h
    · cases h
      exact ⟨mkRat 7 10, dlookup_dset_self _ _ _, by decide, by decide⟩
    · rename_i hm2
      exact absurd hm (by simpa using hm2)

theorem stepTopPD_bound {model : String} {d d' : Dict}
    (h : stepTopPD model d = .ok d') (hm : model ≠ "deepseek-reasoner") :
    ∃ t : ℚ, dlookup d' "top_p" = some (.vFloat t) ∧ 0 ≤ t ∧ t ≤ 1 := by
  unfold stepTopPD at h
  split at h
  · split at h
    · split at h
      · rename_i q hq
        cases h
        exact ⟨max 0 (min q 1), dlookup_dset_self _ _ _, le_max_left _ _,
          max_le (by norm_num) (min_le_right _ _)⟩
      · cases h
    · rename_i hm2
      exact absurd hm (by simpa using hm2)
  · split at h
    · cases h
      exact ⟨mkRat 9 10, dlookup_dset_self _ _ _, by decide, by decide⟩
    · rename_i hm2
      exact absurd hm (by simpa using hm2)

theorem stepTemperatureD_ok_of_conv {model : String} {d : Dict}
    (h : ∀ x, dlookup d "temperature" = some x → (pyFloat x).isSome = true) :
    ∃ d', stepTemperatureD model d = .ok d' := by
  unfold stepTemperatureD
  cases hl : dlookup d "temperature" with
  | some v =>
    by_cases hm : model = "deepseek-reasoner"
    · subst hm; simp
    · have hc := h v hl
      cases hcv : pyFloat v with
      | some q => simp [hm, hcv]
      | none => rw [hcv] at hc; cases hc
  | none =>
    by_cases hm : model = "deepseek-reasoner"
    · subst hm; simp
    · simp [hm]

theorem stepTopPD_ok_of_conv {model : String} {d : Dict}
    (h : ∀ x, dlookup d "top_p" = some x → (pyFloat x).isSome = true) :
    ∃ d', stepTopPD model d = .ok d' := by
  unfold stepTopPD
  cases hl : dlookup d "top_p" with
  | some v =>
    by_cases hm : model = "deepseek-reasoner"
    · subst hm; simp
    · have hc := h v hl
      cases hcv : pyFloat v with
      | some q => simp [hm, hcv]
      | none => rw [hcv] at hc; cases hc
  | none =>
    by_cases hm : model = "deepseek-reasoner"
    · subst hm; simp
    · simp [hm]

theorem stepMessagesA_populated (p v : Dict)
    (hp : (dcontains p "prompt" || dcontains p "messages") = true) :
    (dlookup (stepMessagesA p v) "messages").isSome = true := by
  unfold stepMessagesA
  cases hm : dlookup p "messages" with
  | some m => rw [dlookup_dset_self]; rfl
  | none =>
    cases hq : dlookup p "prompt" with
    | some q => rw [dlookup_dset_self]; rfl
    | none =>
      rw [Bool.or_eq_true] at hp
      rcases hp with hp | hp <;> unfold dcontains at hp
      · rw [hq] at hp; cases hp
      · rw [hm] at hp; cases hp

theorem stepMessagesD_populated (p v : Dict)
    (hp : (dcontains p "prompt" || dcontains p "messages") = true) :
    (dlookup (stepMessagesD p v) "messages").isSome = true := by
  unfold stepMessagesD
  cases hm : dlookup p "messages" with
  | some m => rw [dlookup_dset_self]; rfl
  | none =>
    cases hq : dlookup p "prompt" with
    | some q =>
      dsimp only
      split
      · rw [dlookup_ddel_ne _ _ _ (by decide), dlookup_dset_self]; rfl
      · rw [dlookup_dset_self]; rfl
    | none =>
      rw [Bool.or_eq_true] at hp
      rcases hp with hp | hp <;> unfold dcontains at hp
      · rw [hq] at hp; cases hp
      · rw [hm] at hp; cases hp

/-! ### Composed pipeline lemmas -/

theorem aliyunPipeline_preserves {p : Dict} {model : String} {v : Dict} {key : String}
    (h : aliyunPipeline p model = .ok v)
    (h1 : key ≠ "model") (h2 : key ≠ "messages") (h3 : key ≠ "max_tokens")
    (h4 : key ≠ "temperature") (h5 : key ≠ "top_p") (h6 : key ≠ "top_k")
    (h7 : key ≠ "stream") (h8 : key ≠ "seed") (h9 : key ≠ "enable_thinking") :
    dlookup v key = dlookup p key := by
  obtain ⟨v1, v2, v3, v4, v5, s1, s2, s3, s4, s5, hv⟩ := aliyunPipeline_ok_inv h
  subst hv
  rw [stepEnableThinkingA_lookup_ne _ _ (Ne.symm h9),
    clampStep_ok_lookup_ne s5 (Ne.symm h8),
    stepStream_lookup_ne _ _ (Ne.symm h7),
    clampStep_ok_lookup_ne s4 (Ne.symm h6),
    clampStep_ok_lookup_ne s3 (Ne.symm h5),
    clampStep_ok_lookup_ne s2 (Ne.symm h4),
    clampStep_ok_lookup_ne s1 (Ne.symm h3),
    stepMessagesA_lookup_ne _ _ _ (Ne.symm h2),
    dlookup_dset_ne _ _ _ _ (Ne.symm h1)]

theorem deepseekPipeline_preserves {p : Dict} {model : String} {v : Dict} {key : String}
    (h : deepseekPipeline p model = .ok v)
    (h1 : key ≠ "model") (h2 : key ≠ "messages") (h3 : key ≠ "max_tokens")
    (h4 : key ≠ "temperature") (h5 : key ≠ "top_p") (h7 : key ≠ "stream")
    (h10 : key ≠ "prompt") :
    dlookup v key = dlookup p key := by
  obtain ⟨v1, v2, v3, s1, s2, s3, hv⟩ := deepseekPipeline_ok_inv h
  subst hv
  rw [stepStream_lookup_ne _ _ (Ne.symm h7),
    stepTopPD_ok_lookup_ne s3 (Ne.symm h5),
    stepTemperatureD_ok_lookup_ne s2 (Ne.symm h4),
    clampStep_ok_lookup_ne s1 (Ne.symm h3),
    stepMessagesD_lookup_ne _ _ _ (Ne.symm h2) (Ne.symm h10),
    dlookup_dset_ne _ _ _ _ (Ne.symm h1)]

theorem aliyunPipeline_bounds {p : Dict} {model : String} {v : Dict}
    (h : aliyunPipeline p model = .ok v) :
    (∃ t : ℚ, dlookup v "temperature" = some (.vFloat t) ∧ 0 ≤ t ∧ t ≤ 1) ∧
    (∃ t : ℚ, dlookup v "top_p" = some (.vFloat t) ∧ 0 ≤ t ∧ t ≤ 1) ∧
    (∀ x, dlookup v "top_k" = some x → ∃ n : Int, x = .vInt n ∧ 1 ≤ n ∧ n ≤ 100) ∧
    (∃ n : Int, dlookup v "max_tokens" = some (.vInt n) ∧ n ≤ 6000) := by
  obtain ⟨v1, v2, v3, v4, v5, s1, s2, s3, s4, s5, hv⟩ := aliyunPipeline_ok_inv h
  subst hv
  refine ⟨?_, ?_, ?_, ?_⟩
  · have e : dlookup (stepEnableThinkingA v5) "temperature" = dlookup v2 "temperature" := by
      rw [stepEnableThinkingA_lookup_ne _ _ (by decide),
        clampStep_ok_lookup_ne s5 (by decide),
        stepStream_lookup_ne _ _ (by decide),
        clampStep_ok_lookup_ne s4 (by decide),
        clampStep_ok_lookup_ne s3 (by decide)]
    rw [e]
    exact stepTemperatureA_bound s2
  · have e : dlookup (stepEnableThinkingA v5) "top_p" = dlookup v3 "top_p" := by
      rw [stepEnableThinkingA_lookup_ne _ _ (by decide),
        clampStep_ok_lookup_ne s5 (by decide),
        stepStream_lookup_ne _ _ (by decide),
        clampStep_ok_lookup_ne s4 (by decide)]
    rw [e]
    exact stepTopPA_bound s3
  · have e : dlookup (stepEnableThinkingA v5) "top_k" = dlookup v4 "top_k" := by
      rw [stepEnableThinkingA_lookup_ne _ _ (by decide),
        clampStep_ok_lookup_ne s5 (by decide),
        stepStream_lookup_ne _ _ (by decide)]
    rw [e]
    exact stepTopKA_bound s4
  · have e : dlookup (stepEnableThinkingA v5) "max_tokens" = dlookup v1 "max_tokens" := by
      rw [stepEnableThinkingA_lookup_ne _ _ (by decide),
        clampStep_ok_lookup_ne s5 (by decide),
        stepStream_lookup_ne _ _ (by decide),
        clampStep_ok_lookup_ne s4 (by decide),
        clampStep_ok_lookup_ne s3 (by decide),
        clampStep_ok_lookup_ne s2 (by decide)]
    rw [e]
    exact stepMaxTokensA_bound s1

theorem deepseekPipeline_bounds {p : Dict} {model : String} {v : Dict}
    (h : deepseekPipeline p model = .ok v) (hm : model ≠ "deepseek-reasoner") :
    (∃ t : ℚ, dlookup v "temperature" = some (.vFloat t) ∧ 0 ≤ t ∧ t ≤ 2) ∧
    (∃ t : ℚ, dlookup v "top_p" = some (.vFloat t) ∧ 0 ≤ t ∧ t ≤ 1) ∧
    (∃ n : Int, dlookup v "max_tokens" = some (.vInt n) ∧ n ≤ 32768) := by
  obtain ⟨v1, v2, v3, s1, s2, s3, hv⟩ := deepseekPipeline_ok_inv h
  subst hv
  refine ⟨?_, ?_, ?_⟩
  · have e : dlookup (stepStream v3) "temperature" = dlookup v2 "temperature" := by
      rw [stepStream_lookup_ne _ _ (by decide),
        stepTopPD_ok_lookup_ne s3 (by decide)]
    rw [e]
    exact stepTemperatureD_bound s2 hm
  · have e : dlookup (stepStream v3) "top_p" = dlookup v3 "top_p" :=
      stepStream_lookup_ne _ _ (by decide)
    rw [e]
    exact stepTopPD_bound s3 hm
  · have e : dlookup (stepStream v3) "max_tokens" = dlookup v1 "max_tokens" := by
      rw [stepStream_lookup_ne _ _ (by decide),
        stepTopPD_ok_lookup_ne s3 (by decide),
        stepTemperatureD_ok_lookup_ne s2 (by decide)]
    rw [e]
    exact stepMaxTokensD_bound s1

theorem deepseekPipeline_reasoner_passthrough {p : Dict} {v : Dict}
    (h : deepseekPipeline p "deepseek-reasoner" = .ok v) :
    dlookup v "temperature" = dlookup p "temperature" ∧
    dlookup v "top_p" = dlookup p "top_p" := by
  obtain ⟨v1, v2, v3, s1, s2, s3, hv⟩ := deepseekPipeline_ok_inv h
  subst hv
  rw [stepTemperatureD_reasoner v1] at s2
  rw [stepTopPD_reasoner v2] at s3
  cases s2
  cases s3
  constructor
  · rw [stepStream_lookup_ne _ _ (by decide),
      clampStep_ok_lookup_ne s1 (by decide),
      stepMessagesD_lookup_ne _ _ _ (by decide) (by decide),
      dlookup_dset_ne _ _ _ _ (by decide)]
  · rw [stepStream_lookup_ne _ _ (by decide),
      clampStep_ok_lookup_ne s1 (by decide),
      stepMessagesD_lookup_ne _ _ _ (by decide) (by decide),
      dlookup_dset_ne _ _ _ _ (by decide)]

theorem aliyunPipeline_prompt_wrap {p : Dict} {model : String} {v : Dict} {pv : Value}
    (hm : dlookup p "messages" = none) (hq : dlookup p "prompt" = some pv)
    (h : aliyunPipeline p model = .ok v) :
    dlookup v "messages" =
      some (.vList [.vDict [("role", .vStr "user"), ("content", pv)]]) ∧
    dlookup v "prompt" = some pv := by
  obtain ⟨v1, v2, v3, v4, v5, s1, s2, s3, s4, s5, hv⟩ := aliyunPipeline_ok_inv h
  subst hv
  constructor
  · have e : dlookup (stepEnableThinkingA v5) "messages" =
        dlookup (stepMessagesA p (dset p "model" (.vStr model))) "messages" := by
      rw [stepEnableThinkingA_lookup_ne _ _ (by decide),
        clampStep_ok_lookup_ne s5 (by decide),
        stepStream_lookup_ne _ _ (by decide),
        clampStep_ok_lookup_ne s4 (by decide),
        clampStep_ok_lookup_ne s3 (by decide),
        clampStep_ok_lookup_ne s2 (by decide),
        clampStep_ok_lookup_ne s1 (by decide)]
    rw [e]
    unfold stepMessagesA
    rw [hm, hq]
    exact dlookup_dset_self _ _ _
  · have e : dlookup (stepEnableThinkingA v5) "prompt" =
        dlookup (stepMessagesA p (dset p "model" (.vStr model))) "prompt" := by
      rw [stepEnableThinkingA_lookup_ne _ _ (by decide),
        clampStep_ok_lookup_ne s5 (by decide),
        stepStream_lookup_ne _ _ (by decide),
        clampStep_ok_lookup_ne s4 (by decide),
        clampStep_ok_lookup_ne s3 (by decide),
        clampStep_ok_lookup_ne s2 (by decide),
        clampStep_ok_lookup_ne s1 (by decide)]
    rw [e, stepMessagesA_lookup_ne _ _ _ (by decide),
      dlookup_dset_ne _ _ _ _ (by decide), hq]

theorem deepseekPipeline_prompt_wrap {p : Dict} {model : String} {v : Dict} {pv : Value}
    (hnd : NodupKeysD p)
    (hm : dlookup p "messages" = none) (hq : dlookup p "prompt" = some pv)
    (h : deepseekPipeline p model = .ok v) :
    dlookup v "messages" =
      some (.vList [.vDict [("role", .vStr "user"), ("content", pv)]]) ∧
    dlookup v "prompt" = none := by
  obtain ⟨v1, v2, v3, s1, s2, s3, hv⟩ := deepseekPipeline_ok_inv h
  subst hv
  have hcontains : dcontains
      (dset (dset p "model" (.vStr model)) "messages"
        (.vList [.vDict [("role", .vStr "user"), ("content", pv)]])) "prompt" = true := by
    unfold dcontains
    rw [dlookup_dset_ne _ _ _ _ (by decide), dlookup_dset_ne _ _ _ _ (by decide), hq]
    rfl
  have hmsgD : stepMessagesD p (dset p "model" (.vStr model)) =
      ddel (dset (dset p "model" (.vStr model)) "messages"
        (.vList [.vDict [("role", .vStr "user"), ("content", pv)]])) "prompt" := by
    unfold stepMessagesD
    rw [hm, hq]
    dsimp only
    rw [hcontains]
    simp
  constructor
  · have e : dlookup (stepStream v3) "messages" =
        dlookup (stepMessagesD p (dset p "model" (.vStr model))) "messages" := by
      rw [stepStream_lookup_ne _ _ (by decide),
        stepTopPD_ok_lookup_ne s3 (by decide),
        stepTemperatureD_ok_lookup_ne s2 (by decide),
        clampStep_ok_lookup_ne s1 (by decide)]
    rw [e, hmsgD, dlookup_ddel_ne _ _ _ (by decide)]
    exact dlookup_dset_self _ _ _
  · have e : dlookup (stepStream v3) "prompt" =
        dlookup (stepMessagesD p (dset p "model" (.vStr model))) "prompt" := by
      rw [stepStream_lookup_ne _ _ (by decide),
        stepTopPD_ok_lookup_ne s3 (by decide),
        stepTemperatureD_ok_lookup_ne s2 (by decide),
        clampStep_ok_lookup_ne s1 (by decide)]
    rw [e, hmsgD]
    exact dlookup_ddel_self _ _ (nodup_dset _ _ _ (nodup_dset _ _ _ hnd))

/-! ### Success of the pipelines under convertible numeric fields -/

theorem aliyunPipeline_ok {p : Dict} {model : String}
    (hmt : ∀ x, dlookup p "max_tokens" = some x → (pyInt x).isSome = true)
    (htm : ∀ x, dlookup p "temperature" = some x → (pyFloat x).isSome = true)
    (htp : ∀ x, dlookup p "top_p" = some x → (pyFloat x).isSome = true)
    (htk : ∀ x, dlookup p "top_k" = some x → (pyInt x).isSome = true)
    (hsd : ∀ x, dlookup p "seed" = some x → (pyInt x).isSome = true)
    (hp : (dcontains p "prompt" || dcontains p "messages") = true) :
    ∃ v, aliyunPipeline p model = .ok v ∧ (dlookup v "messages").isSome = true := by
  have base : ∀ key : String, key ≠ "model" → key ≠ "messages" →
      dlookup (stepMessagesA p (dset p "model" (.vStr model))) key = dlookup p key := by
    intro key hk1 hk2
    rw [stepMessagesA_lookup_ne _ _ _ (Ne.symm hk2), dlookup_dset_ne _ _ _ _ (Ne.symm hk1)]
  obtain ⟨v1, s1⟩ := @clampStep_ok_of_conv Int "max_tokens" pyInt
    (fun n => Value.vInt (min n 6000)) (some (.vInt 2048))
    (stepMessagesA p (dset p "model" (.vStr model)))
    (by rw [base "max_tokens" (by decide) (by decide)]; exact hmt)
  have e1 : ∀ key : String, key ≠ "max_tokens" → dlookup v1 key =
      dlookup (stepMessagesA p (dset p "model" (.vStr model))) key :=
    fun key hk => clampStep_ok_lookup_ne s1 (Ne.symm hk)
  obtain ⟨v2, s2⟩ := @clampStep_ok_of_conv ℚ "temperature" pyFloat
    (fun q => Value.vFloat (max 0 (min q 1))) (some (.vFloat (mkRat 7 10))) v1
    (by rw [e1 "temperature" (by decide), base "temperature" (by decide) (by decide)]
        exact htm)
  have e2 : ∀ key : String, key ≠ "temperature" → dlookup v2 key = dlookup v1 key :=
    fun key hk => clampStep_ok_lookup_ne s2 (Ne.symm hk)
  obtain ⟨v3, s3⟩ := @clampStep_ok_of_conv ℚ "top_p" pyFloat
    (fun q => Value.vFloat (max 0 (min q 1))) (some (.vFloat (mkRat 9 10))) v2
    (by rw [e2 "top_p" (by decide), e1 "top_p" (by decide),
          base "top_p" (by decide) (by decide)]
        exact htp)
  have e3 : ∀ key : String, key ≠ "top_p" → dlookup v3 key = dlookup v2 key :=
    fun key hk => clampStep_ok_lookup_ne s3 (Ne.symm hk)
  obtain ⟨v4, s4⟩ := @clampStep_ok_of_conv Int "top_k" pyInt
    (fun n => Value.vInt (max 1 (min n 100))) none v3
    (by rw [e3 "top_k" (by decide), e2 "top_k" (by decide), e1 "top_k" (by decide),
          base "top_k" (by decide) (by decide)]
        exact htk)
  have e4 : ∀ key : String, key ≠ "top_k" → dlookup v4 key = dlookup v3 key :=
    fun key hk => clampStep_ok_lookup_ne s4 (Ne.symm hk)
  obtain ⟨v5, s5⟩ := @clampStep_ok_of_conv Int "seed" pyInt
    (fun n => Value.vInt n) none (stepStream v4)
    (by rw [stepStream_lookup_ne v4 "seed" (by decide), e4 "seed" (by decide),
          e3 "seed" (by decide), e2 "seed" (by decide), e1 "seed" (by decide),
          base "seed" (by decide) (by decide)]
        exact hsd)
  have s1x : stepMaxTokensA (stepMessagesA p (dset p "model" (.vStr model))) = .ok v1 := s1
  have s2x : stepTemperatureA v1 = .ok v2 := s2
  have s3x : stepTopPA v2 = .ok v3 := s3
  have s4x : stepTopKA v3 = .ok v4 := s4
  have s5x : stepSeedA (stepStream v4) = .ok v5 := s5
  refine ⟨stepEnableThinkingA v5, ?_, ?_⟩
  · unfold aliyunPipeline
    simp only [s1x, s2x, s3x, s4x, s5x]
  · rw [stepEnableThinkingA_lookup_ne _ _ (by decide),
      clampStep_ok_lookup_ne s5 (by decide),
      stepStream_lookup_ne _ _ (by decide),
      e4 "messages" (by decide), e3 "messages" (by decide), e2 "messages" (by decide),
      e1 "messages" (by decide)]
    exact stepMessagesA_populated _ _ hp

theorem deepseekPipeline_ok {p : Dict} {model : String}
    (hmt : ∀ x, dlookup p "max_tokens" = some x → (pyInt x).isSome = true)
    (htm : ∀ x, dlookup p "temperature" = some x → (pyFloat x).isSome = true)
    (htp : ∀ x, dlookup p "top_p" = some x → (pyFloat x).isSome = true)
    (hp : (dcontains p "prompt" || dcontains p "messages") = true) :
    ∃ v, deepseekPipeline p model = .ok v ∧ (dlookup v "messages").isSome = true := by
  have base : ∀ key : String, key ≠ "model" → key ≠ "messages" → key ≠ "prompt" →
      dlookup (stepMessagesD p (dset p "model" (.vStr model))) key = dlookup p key := by
    intro key hk1 hk2 hk3
    rw [stepMessagesD_lookup_ne _ _ _ (Ne.symm hk2) (Ne.symm hk3),
      dlookup_dset_ne _ _ _ _ (Ne.symm hk1)]
  obtain ⟨v1, s1⟩ := @clampStep_ok_of_conv Int "max_tokens" pyInt
    (fun n => Value.vInt (min n 32768)) (some (.vInt 4096))
    (stepMessagesD p (dset p "model" (.vStr model)))
    (by rw [base "max_tokens" (by decide) (by decide) (by decide)]; exact hmt)
  have e1 : ∀ key : String, key ≠ "max_tokens" → dlookup v1 key =
      dlookup (stepMessagesD p (dset p "model" (.vStr model))) key :=
    fun key hk => clampStep_ok_lookup_ne s1 (Ne.symm hk)
  obtain ⟨v2, s2⟩ := @stepTemperatureD_ok_of_conv model v1
    (by rw [e1 "temperature" (by decide),
          base "temperature" (by decide) (by decide) (by decide)]
        exact htm)
  have e2 : ∀ key : String, key ≠ "temperature" → dlookup v2 key = dlookup v1 key :=
    fun key hk => stepTemperatureD_ok_lookup_ne s2 (Ne.symm hk)
  obtain ⟨v3, s3⟩ := @stepTopPD_ok_of_conv model v2
    (by rw [e2 "top_p" (by decide), e1 "top_p" (by decide),
          base "top_p" (by decide) (by decide) (by decide)]
        exact htp)
  have s1x : stepMaxTokensD (stepMessagesD p (dset p "model" (.vStr model))) = .ok v1 := s1
  refine ⟨stepStream v3, ?_, ?_⟩
  · unfold deepseekPipeline
    simp only [s1x, s2, s3]
  · rw [stepStream_lookup_ne _ _ (by decide),
      stepTopPD_ok_lookup_ne s3 (by decide),
      e2 "messages" (by decide), e1 "messages" (by decide)]
    exact stepMessagesD_populated _ _ hp

/-! ### The caller-supplied dict is never written -/

theorem runValidateA_parameters (cfg : Option (List String)) (model : String)
    (s : PState) : ((runValidateA cfg model s).1).parameters = s.parameters := by
  unfold runValidateA
  cases hb1 : (aliyunSupportedModels cfg).contains model with
  | false => rfl
  | true =>
    cases hb2 : dcontains s.parameters "prompt" || dcontains s.parameters "messages" with
    | false => rfl
    | true =>
      simp only [Bool.true_eq_false, if_false]
      cases hs1 : stepMaxTokensA
          (stepMessagesA s.parameters (dset s.parameters "model" (.vStr model))) with
      | error e => rw [seqV_error hs1]
      | ok v1 =>
        rw [seqV_ok hs1]
        dsimp only
        cases hs2 : stepTemperatureA v1 with
        | error e => rw [seqV_error hs2]
        | ok v2 =>
          rw [seqV_ok hs2]
          dsimp only
          cases hs3 : stepTopPA v2 with
          | error e => rw [seqV_error hs3]
          | ok v3 =>
            rw [seqV_ok hs3]
            dsimp only
            cases hs4 : stepTopKA v3 with
            | error e => rw [seqV_error hs4]
            | ok v4 =>
              rw [seqV_ok hs4]
              dsimp only
              cases hs5 : stepSeedA (stepStream v4) with
              | error e => rw [seqV_error hs5]
              | ok v5 => rw [seqV_ok hs5]

theorem runValidateD_parameters (cfg : Option (List String)) (model : String)
    (s : PState) : ((runValidateD cfg model s).1).parameters = s.parameters := by
  unfold runValidateD
  cases hb1 : (deepseekSupportedModels cfg).contains model with
  | false => rfl
  | true =>
    cases hb2 : dcontains s.parameters "prompt" || dcontains s.parameters "messages" with
    | false => rfl
    | true =>
      simp only [Bool.true_eq_false, if_false]
      cases hs1 : stepMaxTokensD
          (stepMessagesD s.parameters (dset s.parameters "model" (.vStr model))) with
      | error e => rw [seqV_error hs1]
      | ok v1 =>
        rw [seqV_ok hs1]
        dsimp only
        cases hs2 : stepTemperatureD model v1 with
        | error e => rw [seqV_error hs2]
        | ok v2 =>
          rw [seqV_ok hs2]
          dsimp only
          cases hs3 : stepTopPD model v2 with
          | error e => rw [seqV_error hs3]
          | ok v3 => rw [seqV_ok hs3]

/-! ### Claim theorems -/

/-- Claim C4: for the Aliyun provider, normalizing the upstream payload
with output.text = "hi there" and usage = {input_tokens: 2, output_tokens: 3}
for the request validated from {prompt: "hello"} (model qwen-turbo) yields
exactly one choice, at index 0, with role assistant, content "hi there" and
finish_reason stop, and usage {prompt_tokens: 2, completion_tokens: 3,
total_tokens: 0}: the absent upstream total_tokens becomes 0 and is not
computed as the sum 2 + 3. -/
theorem aliyun_flat_text_scenario (freshId nowStr : String) :
    aliyunValidate none "qwen-turbo" [("prompt", .vStr "hello")] =
      .ok [("prompt", .vStr "hello"), ("model", .vStr "qwen-turbo"),
        ("messages", .vList [.vDict [("role", .vStr "user"), ("content", .vStr "hello")]]),
        ("max_tokens", .vInt 2048), ("temperature", .vFloat (mkRat 7 10)),
        ("top_p", .vFloat (mkRat 9 10)), ("stream", .vBool false),
        ("enable_thinking", .vBool false)] ∧
    dlookup (aliyunFormatResponse
        [("output", .vDict [("text", .vStr "hi there")]),
         ("usage", .vDict [("input_tokens", .vInt 2), ("output_tokens", .vInt 3)])]
        [("prompt", .vStr "hello"), ("model", .vStr "qwen-turbo"),
         ("messages", .vList [.vDict [("role", .vStr "user"), ("content", .vStr "hello")]]),
         ("max_tokens", .vInt 2048), ("temperature", .vFloat (mkRat 7 10)),
         ("top_p", .vFloat (mkRat 9 10)), ("stream", .vBool false),
         ("enable_thinking", .vBool false)]
        freshId nowStr) "choices" =
      some (.vList [.vDict [("index", .vInt 0),
        ("message", .vDict [("role", .vStr "assistant"), ("content", .vStr "hi there")]),
        ("finish_reason", .vStr "stop")]]) ∧
    dlookup (aliyunFormatResponse
        [("output", .vDict [("text", .vStr "hi there")]),
         ("usage", .vDict [("input_tokens", .vInt 2), ("output_tokens", .vInt 3)])]
        [("prompt", .vStr "hello"), ("model", .vStr "qwen-turbo"),
         ("messages", .vList [.vDict [("role", .vStr "user"), ("content", .vStr "hello")]]),
         ("max_tokens", .vInt 2048), ("temperature", .vFloat (mkRat 7 10)),
         ("top_p", .vFloat (mkRat 9 10)), ("stream", .vBool false),
         ("enable_thinking", .vBool false)]
        freshId nowStr) "usage" =
      some (.vDict [("prompt_tokens", .vInt 2), ("completion_tokens", .vInt 3),
        ("total_tokens", .vInt 0)]) :=
  ⟨rfl, rfl, rfl⟩

/-- Claim C5: for every provider and caller parameters dict, the
validate_parameters run never writes the caller-supplied dict: the
parameters component of the final state equals the input dict, whether the
run raises or returns (every assignment of the source targets the local
validated copy). -/
theorem validation_never_mutates_input (cfg : Option (List String)) (model : String)
    (p d0 : Dict) :
    ((runValidateA cfg model ⟨p, d0⟩).1).parameters = p ∧
    ((runValidateD cfg model ⟨p, d0⟩).1).parameters = p :=
  ⟨runValidateA_parameters cfg model ⟨p, d0⟩, runValidateD_parameters cfg model ⟨p, d0⟩⟩

/-- Claim C7: for every provider, every supported model and every parameters
dict containing neither a prompt key nor a messages key, validate_parameters
fails with MissingInputError and produces no validated output. -/
theorem missing_input_fails (cfgA cfgD : Option (List String)) (mA mD : String)
    (p q : Dict)
    (hmA : (aliyunSupportedModels cfgA).contains mA = true)
    (hmD : (deepseekSupportedModels cfgD).contains mD = true)
    (hp1 : dcontains p "prompt" = false) (hp2 : dcontains p "messages" = false)
    (hq1 : dcontains q "prompt" = false) (hq2 : dcontains q "messages" = false) :
    aliyunValidate cfgA mA p = .error .missingInput ∧
    deepseekValidate cfgD mD q = .error .missingInput := by
  constructor
  · rw [aliyunValidate_eq, hmA, hp1, hp2]
    simp
  · rw [deepseekValidate_eq, hmD, hq1, hq2]
    simp

/-- Witness for C7 at concrete inputs: qwen-turbo and deepseek-chat with an
empty parameters dict both fail with MissingInputError. -/
theorem missing_input_fails_witness :
    aliyunValidate none "qwen-turbo" [] = .error .missingInput ∧
    deepseekValidate none "deepseek-chat" [] = .error .missingInput :=
  missing_input_fails none none "qwen-turbo" "deepseek-chat" [] []
    (by decide) (by decide) rfl rfl rfl rfl

/-- Counterexample to claim C1 at the empty payload (usage absent): the
Aliyun normalizer leaves usage as an empty dict, which differs from the
zero-filled stats the claim asserts and has no readable total_tokens entry;
the DeepSeek normalizer omits the usage key entirely. -/
theorem usage_absent_counterexample :
    dlookup ([] : Dict) "usage" = none ∧
    dlookup (aliyunFormatResponse [] [("model", .vStr "qwen-turbo")] "fid" "now")
      "usage" = some (.vDict []) ∧
    some (Value.vDict []) ≠ some (Value.vDict [("prompt_tokens", .vInt 0),
      ("completion_tokens", .vInt 0), ("total_tokens", .vInt 0)]) ∧
    dlookup (asDict (dgetD
      (aliyunFormatResponse [] [("model", .vStr "qwen-turbo")] "fid" "now")
      "usage" (.vDict []))) "total_tokens" = none ∧
    dlookup (deepseekFormatResult "deepseek-chat"
      ⟨"rid", "chat.completion", "deepseek-chat", [], none⟩ "now") "usage" = none := by
  refine ⟨rfl, rfl, ?_, rfl, rfl⟩
  intro h
  injection h with h
  injection h with h
  cases h

/-- Claim C1 amended: when the upstream payload omits usage, the Aliyun
normalizer returns a usage field holding an empty dict (present, but with no
readable total_tokens entry), and the DeepSeek normalizer omits the usage
field entirely; neither produces the zero-filled stats. -/
theorem usage_absent_amended (payload params : Dict) (freshId nowStr : String)
    (model : String) (resp : DSResponse) (now2 : String)
    (hok : aliyunPayloadOk payload)
    (hu : dlookup payload "usage" = none) (hr : resp.usage = none) :
    dlookup (aliyunFormatResponse payload params freshId nowStr) "usage"
      = some (.vDict []) ∧
    dlookup (deepseekFormatResult model resp now2) "usage" = none := by
  constructor
  · have husage : dgetD payload "usage" (.vDict []) = .vDict [] := by
      unfold dgetD
      rw [hu]
      rfl
    simp only [aliyunFormatResponse, husage]
    rw [dlookup_cons_ne _ _ _ _ (by decide), dlookup_cons_ne _ _ _ _ (by decide),
      dlookup_cons_ne _ _ _ _ (by decide), dlookup_cons_ne _ _ _ _ (by decide),
      dlookup_cons_self]
    rfl
  · simp only [deepseekFormatResult, hr]
    rw [dlookup_cons_ne _ _ _ _ (by decide), dlookup_cons_ne _ _ _ _ (by decide),
      dlookup_cons_ne _ _ _ _ (by decide), dlookup_cons_ne _ _ _ _ (by decide),
      dlookup_cons_ne _ _ _ _ (by decide)]
    rfl

/-- Witness for the amended C1 at concrete inputs: a payload holding only a
status field and a DeepSeek response with no usage attribute. -/
theorem usage_absent_amended_witness :
    dlookup (aliyunFormatResponse [("status", .vInt 200)] [] "f" "t") "usage"
      = some (.vDict []) ∧
    dlookup (deepseekFormatResult "deepseek-chat"
      ⟨"id1", "chat.completion", "deepseek-chat", [], none⟩ "t2") "usage" = none :=
  usage_absent_amended [("status", .vInt 200)] [] "f" "t" "deepseek-chat"
    ⟨"id1", "chat.completion", "deepseek-chat", [], none⟩ "t2"
    ⟨trivial, trivial⟩ rfl rfl

/-- Counterexample to claim C2: for deepseek-reasoner, a caller-supplied
temperature of 5.0 survives validation unchanged, although the declared
DeepSeek temperature interval tops out at 2.0; nothing clamps it. -/
theorem clamp_counterexample :
    deepseekValidate none "deepseek-reasoner"
      [("prompt", .vStr "hi"), ("temperature", .vFloat 5)] =
      .ok [("temperature", .vFloat 5), ("model", .vStr "deepseek-reasoner"),
        ("messages", .vList [.vDict [("role", .vStr "user"), ("content", .vStr "hi")]]),
        ("max_tokens", .vInt 4096), ("stream", .vBool false)] ∧
    ¬ ((5 : ℚ) ≤ 2) :=
  ⟨rfl, by decide⟩

/-- Claim C2 amended: after successful validation, Aliyun temperature and
top_p lie in the interval from 0 to 1 and a present top_k lies between 1 and
100; for DeepSeek models other than deepseek-reasoner, temperature lies in the
interval from 0 to 2 and top_p from 0 to 1; max_tokens is clamped only from
above (6000 for Aliyun, 32768 for DeepSeek), with no lower bound; the
deepseek-reasoner model is excluded, since its temperature and top_p are not
clamped at all (the claim C3 theorems prove the passthrough). -/
theorem validated_numeric_bounds (cfgA cfgD : Option (List String))
    (mA mD : String) (p q v w : Dict)
    (hA : aliyunValidate cfgA mA p = .ok v)
    (hD : deepseekValidate cfgD mD q = .ok w)
    (hR : mD ≠ "deepseek-reasoner") :
    ((∃ t : ℚ, dlookup v "temperature" = some (.vFloat t) ∧ 0 ≤ t ∧ t ≤ 1) ∧
     (∃ t : ℚ, dlookup v "top_p" = some (.vFloat t) ∧ 0 ≤ t ∧ t ≤ 1) ∧
     (∀ x, dlookup v "top_k" = some x → ∃ n : Int, x = .vInt n ∧ 1 ≤ n ∧ n ≤ 100) ∧
     (∃ n : Int, dlookup v "max_tokens" = some (.vInt n) ∧ n ≤ 6000)) ∧
    ((∃ t : ℚ, dlookup w "temperature" = some (.vFloat t) ∧ 0 ≤ t ∧ t ≤ 2) ∧
     (∃ t : ℚ, dlookup w "top_p" = some (.vFloat t) ∧ 0 ≤ t ∧ t ≤ 1) ∧
     (∃ n : Int, dlookup w "max_tokens" = some (.vInt n) ∧ n ≤ 32768)) := by
  rw [aliyunValidate_eq] at hA
  split at hA
  · cases hA
  · split at hA
    · cases hA
    · rw [deepseekValidate_eq] at hD
      split at hD
      · cases hD
      · split at hD
        · cases hD
        · exact ⟨aliyunPipeline_bounds hA, deepseekPipeline_bounds hD hR⟩

/-- Witness for the amended C2 at concrete inputs: validating
{prompt: "x"} for qwen-turbo and deepseek-chat produces defaulted
in-range numeric fields. -/
theorem validated_numeric_bounds_witness :
    ((∃ t : ℚ, dlookup [("prompt", .vStr "x"), ("model", .vStr "qwen-turbo"),
        ("messages", .vList [.vDict [("role", .vStr "user"), ("content", .vStr "x")]]),
        ("max_tokens", .vInt 2048), ("temperature", .vFloat (mkRat 7 10)),
        ("top_p", .vFloat (mkRat 9 10)), ("stream", .vBool false),
        ("enable_thinking", .vBool false)] "temperature" = some (.vFloat t) ∧
        0 ≤ t ∧ t ≤ 1) ∧
     (∃ t : ℚ, dlookup [("prompt", .vStr "x"), ("model", .vStr "qwen-turbo"),
        ("messages", .vList [.vDict [("role", .vStr "user"), ("content", .vStr "x")]]),
        ("max_tokens", .vInt 2048), ("temperature", .vFloat (mkRat 7 10)),
        ("top_p", .vFloat (mkRat 9 10)), ("stream", .vBool false),
        ("enable_thinking", .vBool false)] "top_p" = some (.vFloat t) ∧
        0 ≤ t ∧ t ≤ 1) ∧
     (∀ x, dlookup [("prompt", .vStr "x"), ("model", .vStr "qwen-turbo"),
        ("messages", .vList [.vDict [("role", .vStr "user"), ("content", .vStr "x")]]),
        ("max_tokens", .vInt 2048), ("temperature", .vFloat (mkRat 7 10)),
        ("top_p", .vFloat (mkRat 9 10)), ("stream", .vBool false),
        ("enable_thinking", .vBool false)] "top_k" = some x →
        ∃ n : Int, x = .vInt n ∧ 1 ≤ n ∧ n ≤ 100) ∧
     (∃ n : Int, dlookup [("prompt", .vStr "x"), ("model", .vStr "qwen-turbo"),
        ("messages", .vList [.vDict [("role", .vStr "user"), ("content", .vStr "x")]]),
        ("max_tokens", .vInt 2048), ("temperature", .vFloat (mkRat 7 10)),
        ("top_p", .vFloat (mkRat 9 10)), ("stream", .vBool false),
        ("enable_thinking", .vBool false)] "max_tokens" = some (.vInt n) ∧
        n ≤ 6000)) ∧
    ((∃ t : ℚ, dlookup [("model", .vStr "deepseek-chat"),
        ("messages", .vList [.vDict [("role", .vStr "user"), ("content", .vStr "x")]]),
        ("max_tokens", .vInt 4096), ("temperature", .vFloat (mkRat 7 10)),
        ("top_p", .vFloat (mkRat 9 10)), ("stream", .vBool false)] "temperature" =
        some (.vFloat t) ∧ 0 ≤ t ∧ t ≤ 2) ∧
     (∃ t : ℚ, dlookup [("model", .vStr "deepseek-chat"),
        ("messages", .vList [.vDict [("role", .vStr "user"), ("content", .vStr "x")]]),
        ("max_tokens", .vInt 4096), ("temperature", .vFloat (mkRat 7 10)),
        ("top_p", .vFloat (mkRat 9 10)), ("stream", .vBool false)] "top_p" =
        some (.vFloat t) ∧ 0 ≤ t ∧ t ≤ 1) ∧
     (∃ n : Int, dlookup [("model", .vStr "deepseek-chat"),
        ("messages", .vList [.vDict [("role", .vStr "user"), ("content", .vStr "x")]]),
        ("max_tokens", .vInt 4096), ("temperature", .vFloat (mkRat 7 10)),
        ("top_p", .vFloat (mkRat 9 10)), ("stream", .vBool false)] "max_tokens" =
        some (.vInt n) ∧ n ≤ 32768)) :=
  validated_numeric_bounds none none "qwen-turbo" "deepseek-chat"
    [("prompt", .vStr "x")] [("prompt", .vStr "x")] _ _ rfl rfl (by decide)

/-- Counterexample to claim C3: for deepseek-reasoner a caller-supplied
top_p of one half is retained in the validated output, which therefore does
contain a top_p field. -/
theorem reasoner_fields_counterexample :
    deepseekValidate none "deepseek-reasoner"
      [("prompt", .vStr "hi"), ("top_p", .vFloat (mkRat 1 2))] =
      .ok [("top_p", .vFloat (mkRat 1 2)), ("model", .vStr "deepseek-reasoner"),
        ("messages", .vList [.vDict [("role", .vStr "user"), ("content", .vStr "hi")]]),
        ("max_tokens", .vInt 4096), ("stream", .vBool false)] ∧
    dcontains [("top_p", Value.vFloat (mkRat 1 2)), ("model", .vStr "deepseek-reasoner"),
        ("messages", .vList [.vDict [("role", .vStr "user"), ("content", .vStr "hi")]]),
        ("max_tokens", .vInt 4096), ("stream", .vBool false)] "top_p" = true :=
  ⟨rfl, rfl⟩

/-- Claim C3 amended: for deepseek-reasoner, temperature and top_p are never
defaulted or clamped: each is present in the validated output exactly when the
caller supplied it, and then with the caller's value unchanged. -/
theorem reasoner_fields_passthrough (cfg : Option (List String)) (p v : Dict)
    (h : deepseekValidate cfg "deepseek-reasoner" p = .ok v) :
    dlookup v "temperature" = dlookup p "temperature" ∧
    dlookup v "top_p" = dlookup p "top_p" := by
  rw [deepseekValidate_eq] at h
  split at h
  · cases h
  · split at h
    · cases h
    · exact deepseekPipeline_reasoner_passthrough h

/-- Witness for the amended C3 at a concrete input: a reasoner request
supplying temperature three halves retains it and gets no top_p. -/
theorem reasoner_fields_passthrough_witness :
    dlookup [("temperature", Value.vFloat (mkRat 3 2)),
        ("model", .vStr "deepseek-reasoner"),
        ("messages", .vList [.vDict [("role", .vStr "user"), ("content", .vStr "z")]]),
        ("max_tokens", .vInt 4096), ("stream", .vBool false)] "temperature" =
      dlookup [("prompt", Value.vStr "z"),
        ("temperature", .vFloat (mkRat 3 2))] "temperature" ∧
    dlookup [("temperature", Value.vFloat (mkRat 3 2)),
        ("model", .vStr "deepseek-reasoner"),
        ("messages", .vList [.vDict [("role", .vStr "user"), ("content", .vStr "z")]]),
        ("max_tokens", .vInt 4096), ("stream", .vBool false)] "top_p" =
      dlookup [("prompt", Value.vStr "z"),
        ("temperature", .vFloat (mkRat 3 2))] "top_p" :=
  reasoner_fields_passthrough none
    [("prompt", .vStr "z"), ("temperature", .vFloat (mkRat 3 2))] _ rfl

/-- Claim C6: for both providers, any input key outside the known core set is
present in the validated output with its value unchanged; no unknown key is
dropped. -/
theorem unknown_keys_preserved (cfgA cfgD : Option (List String)) (mA mD : String)
    (p q v w : Dict) (key : String) (hk : key ∉ coreParamKeys)
    (hA : aliyunValidate cfgA mA p = .ok v)
    (hD : deepseekValidate cfgD mD q = .ok w) :
    dlookup v key = dlookup p key ∧ dlookup w key = dlookup q key := by
  simp only [coreParamKeys, List.mem_cons, List.not_mem_nil, or_false] at hk
  push_neg at hk
  obtain ⟨h1, h2, h3, h4, h5, h6, h7, h8, h9, h10⟩ := hk
  rw [aliyunValidate_eq] at hA
  split at hA
  · cases hA
  · split at hA
    · cases hA
    · rw [deepseekValidate_eq] at hD
      split at hD
      · cases hD
      · split at hD
        · cases hD
        · exact ⟨aliyunPipeline_preserves hA h1 h2 h4 h5 h6 h7 h8 h9 h10,
            deepseekPipeline_preserves hD h1 h2 h4 h5 h6 h8 h3⟩

/-- Witness for C6 at a concrete input: the unknown key custom_x with value
42 survives validation by both providers unchanged. -/
theorem unknown_keys_preserved_witness :
    dlookup [("prompt", Value.vStr "hi"), ("custom_x", .vInt 42),
        ("model", .vStr "qwen-turbo"),
        ("messages", .vList [.vDict [("role", .vStr "user"), ("content", .vStr "hi")]]),
        ("max_tokens", .vInt 2048), ("temperature", .vFloat (mkRat 7 10)),
        ("top_p", .vFloat (mkRat 9 10)), ("stream", .vBool false),
        ("enable_thinking", .vBool false)] "custom_x" =
      dlookup [("prompt", Value.vStr "hi"), ("custom_x", .vInt 42)] "custom_x" ∧
    dlookup [("custom_x", Value.vInt 42), ("model", .vStr "deepseek-chat"),
        ("messages", .vList [.vDict [("role", .vStr "user"), ("content", .vStr "hi")]]),
        ("max_tokens", .vInt 4096), ("temperature", .vFloat (mkRat 7 10)),
        ("top_p", .vFloat (mkRat 9 10)), ("stream", .vBool false)] "custom_x" =
      dlookup [("prompt", Value.vStr "hi"), ("custom_x", .vInt 42)] "custom_x" :=
  unknown_keys_preserved none none "qwen-turbo" "deepseek-chat"
    [("prompt", .vStr "hi"), ("custom_x", .vInt 42)]
    [("prompt", .vStr "hi"), ("custom_x", .vInt 42)] _ _ "custom_x"
    (by decide) rfl rfl

/-- Claim C9: when validation derives messages from a caller-supplied prompt
(prompt present, messages absent), both providers produce the singleton
user-role message holding the prompt value; the DeepSeek provider then drops
the prompt key from its output while the Aliyun provider keeps it. -/
theorem prompt_wrap_behavior (cfgA cfgD : Option (List String)) (mA mD : String)
    (p q v w : Dict) (pv qv : Value)
    (hpA : dlookup p "prompt" = some pv) (hmA : dlookup p "messages" = none)
    (hpD : dlookup q "prompt" = some qv) (hmD : dlookup q "messages" = none)
    (hnd : NodupKeysD q)
    (hA : aliyunValidate cfgA mA p = .ok v)
    (hD : deepseekValidate cfgD mD q = .ok w) :
    dlookup v "messages" =
      some (.vList [.vDict [("role", .vStr "user"), ("content", pv)]]) ∧
    dlookup v "prompt" = some pv ∧
    dlookup w "messages" =
      some (.vList [.vDict [("role", .vStr "user"), ("content", qv)]]) ∧
    dlookup w "prompt" = none := by
  rw [aliyunValidate_eq] at hA
  split at hA
  · cases hA
  · split at hA
    · cases hA
    · rw [deepseekValidate_eq] at hD
      split at hD
      · cases hD
      · split at hD
        · cases hD
        · obtain ⟨m1, m2⟩ := aliyunPipeline_prompt_wrap hmA hpA hA
          obtain ⟨m3, m4⟩ := deepseekPipeline_prompt_wrap hnd hmD hpD hD
          exact ⟨m1, m2, m3, m4⟩

/-- Witness for C9 at a concrete input: the prompt "hi" is wrapped into the
singleton user message by both providers; DeepSeek drops the prompt key and
Aliyun retains it. -/
theorem prompt_wrap_behavior_witness :
    dlookup [("prompt", Value.vStr "hi"), ("model", .vStr "qwen-turbo"),
        ("messages", .vList [.vDict [("role", .vStr "user"), ("content", .vStr "hi")]]),
        ("max_tokens", .vInt 2048), ("temperature", .vFloat (mkRat 7 10)),
        ("top_p", .vFloat (mkRat 9 10)), ("stream", .vBool false),
        ("enable_thinking", .vBool false)] "messages" =
      some (.vList [.vDict [("role", .vStr "user"), ("content", .vStr "hi")]]) ∧
    dlookup [("prompt", Value.vStr "hi"), ("model", .vStr "qwen-turbo"),
        ("messages", .vList [.vDict [("role", .vStr "user"), ("content", .vStr "hi")]]),
        ("max_tokens", .vInt 2048), ("temperature", .vFloat (mkRat 7 10)),
        ("top_p", .vFloat (mkRat 9 10)), ("stream", .vBool false),
        ("enable_thinking", .vBool false)] "prompt" = some (.vStr "hi") ∧
    dlookup [("model", Value.vStr "deepseek-chat"),
        ("messages", .vList [.vDict [("role", .vStr "user"), ("content", .vStr "hi")]]),
        ("max_tokens", .vInt 4096), ("temperature", .vFloat (mkRat 7 10)),
        ("top_p", .vFloat (mkRat 9 10)), ("stream", .vBool false)] "messages" =
      some (.vList [.vDict [("role", .vStr "user"), ("content", .vStr "hi")]]) ∧
    dlookup [("model", Value.vStr "deepseek-chat"),
        ("messages", .vList [.vDict [("role", .vStr "user"), ("content", .vStr "hi")]]),
        ("max_tokens", .vInt 4096), ("temperature", .vFloat (mkRat 7 10)),
        ("top_p", .vFloat (mkRat 9 10)), ("stream", .vBool false)] "prompt" = none :=
  prompt_wrap_behavior none none "qwen-turbo" "deepseek-chat"
    [("prompt", .vStr "hi")] [("prompt", .vStr "hi")] _ _ (.vStr "hi") (.vStr "hi")
    rfl rfl rfl rfl (by unfold NodupKeysD keysD; decide) rfl rfl

/-- Claim C10: when the Aliyun upstream output object has neither a text nor
a choices field, normalization does not fail: the result has an empty choices
sequence, its id comes from the payload request_id (or the freshly generated
identifier when absent), and its model comes from the validated parameters. -/
theorem empty_output_normalization (payload od originalParams : Dict)
    (freshId nowStr : String)
    (ho : dlookup payload "output" = some (.vDict od))
    (ht : dcontains od "text" = false) (hc : dcontains od "choices" = false) :
    dlookup (aliyunFormatResponse payload originalParams freshId nowStr) "choices"
      = some (.vList []) ∧
    dlookup (aliyunFormatResponse payload originalParams freshId nowStr) "id"
      = some (dgetD payload "request_id" (.vStr freshId)) ∧
    dlookup (aliyunFormatResponse payload originalParams freshId nowStr) "model"
      = some (dgetD originalParams "model" (.vStr "")) := by
  have hout : asDict (dgetD payload "output" (.vDict [])) = od := by
    unfold dgetD
    rw [ho]
    rfl
  refine ⟨?_, ?_, ?_⟩
  · simp only [aliyunFormatResponse, hout, ht, hc, Bool.false_eq_true, if_false]
    rw [dlookup_cons_ne _ _ _ _ (by decide), dlookup_cons_ne _ _ _ _ (by decide),
      dlookup_cons_ne _ _ _ _ (by decide), dlookup_cons_self]
  · simp only [aliyunFormatResponse]
    rw [dlookup_cons_self]
  · simp only [aliyunFormatResponse]
    rw [dlookup_cons_ne _ _ _ _ (by decide), dlookup_cons_self]

/-- Witness for C10 at a concrete input: an output dict holding only a foo
field normalizes to empty choices with id from request_id and model from the
validated parameters. -/
theorem empty_output_normalization_witness :
    dlookup (aliyunFormatResponse
        [("request_id", .vStr "r1"), ("output", .vDict [("foo", .vInt 1)])]
        [("model", .vStr "qwen-max")] "gen" "t") "choices" = some (.vList []) ∧
    dlookup (aliyunFormatResponse
        [("request_id", .vStr "r1"), ("output", .vDict [("foo", .vInt 1)])]
        [("model", .vStr "qwen-max")] "gen" "t") "id" =
      some (dgetD [("request_id", .vStr "r1"), ("output", .vDict [("foo", .vInt 1)])]
        "request_id" (.vStr "gen")) ∧
    dlookup (aliyunFormatResponse
        [("request_id", .vStr "r1"), ("output", .vDict [("foo", .vInt 1)])]
        [("model", .vStr "qwen-max")] "gen" "t") "model" =
      some (dgetD [("model", Value.vStr "qwen-max")] "model" (.vStr "")) :=
  empty_output_normalization
    [("request_id", .vStr "r1"), ("output", .vDict [("foo", .vInt 1)])]
    [("foo", .vInt 1)] [("model", .vStr "qwen-max")] "gen" "t" rfl rfl rfl

/-- Counterexample to claim C8: qwen-turbo is supported and the parameters
contain a prompt, yet validation fails, with a type error on the
non-numeric temperature value None. -/
theorem validate_success_counterexample :
    (aliyunSupportedModels none).contains "qwen-turbo" = true ∧
    dcontains [("prompt", Value.vStr "hi"), ("temperature", Value.vNone)]
      "prompt" = true ∧
    aliyunValidate none "qwen-turbo"
      [("prompt", .vStr "hi"), ("temperature", .vNone)] =
      .error (.invalidParameterType "temperature") :=
  ⟨rfl, rfl, rfl⟩

/-- Claim C8 amended: an unsupported model always fails with
UnsupportedModelError carrying the model name and the provider's supported
list; a supported model with prompt or messages present succeeds with a
populated messages field, provided every present numeric field carries a
value convertible to its declared numeric type (non-convertible values fail
with a type error instead, as the counterexample shows). -/
theorem model_gate_and_success (cfg : Option (List String)) (model : String)
    (p : Dict) :
    ((aliyunSupportedModels cfg).contains model = false →
      aliyunValidate cfg model p =
        .error (.unsupportedModel model (aliyunSupportedModels cfg))) ∧
    ((deepseekSupportedModels cfg).contains model = false →
      deepseekValidate cfg model p =
        .error (.unsupportedModel model (deepseekSupportedModels cfg))) ∧
    ((aliyunSupportedModels cfg).contains model = true →
      (dcontains p "prompt" || dcontains p "messages") = true →
      (∀ x, dlookup p "max_tokens" = some x → (pyInt x).isSome = true) →
      (∀ x, dlookup p "temperature" = some x → (pyFloat x).isSome = true) →
      (∀ x, dlookup p "top_p" = some x → (pyFloat x).isSome = true) →
      (∀ x, dlookup p "top_k" = some x → (pyInt x).isSome = true) →
      (∀ x, dlookup p "seed" = some x → (pyInt x).isSome = true) →
      ∃ v, aliyunValidate cfg model p = .ok v ∧
        (dlookup v "messages").isSome = true) ∧
    ((deepseekSupportedModels cfg).contains model = true →
      (dcontains p "prompt" || dcontains p "messages") = true →
      (∀ x, dlookup p "max_tokens" = some x → (pyInt x).isSome = true) →
      (∀ x, dlookup p "temperature" = some x → (pyFloat x).isSome = true) →
      (∀ x, dlookup p "top_p" = some x → (pyFloat x).isSome = true) →
      ∃ v, deepseekValidate cfg model p = .ok v ∧
        (dlookup v "messages").isSome = true) := by
  refine ⟨?_, ?_, ?_, ?_⟩
  · intro h
    rw [aliyunValidate_eq, h]
    simp
  · intro h
    rw [deepseekValidate_eq, h]
    simp
  · intro h hp hmt htm htp htk hsd
    rw [aliyunValidate_eq, h, hp]
    simp only [Bool.true_eq_false, if_false]
    exact aliyunPipeline_ok hmt htm htp htk hsd hp
  · intro h hp hmt htm htp
    rw [deepseekValidate_eq, h, hp]
    simp only [Bool.true_eq_false, if_false]
    exact deepseekPipeline_ok hmt htm htp hp

/-- Witness for the amended C8 at concrete inputs: a supported model with a
prompt succeeds with messages populated, and an unknown model name fails with
UnsupportedModelError listing the supported set. -/
theorem model_gate_and_success_witness :
    (∃ v, aliyunValidate none "qwen-turbo" [("prompt", .vStr "hi")] = .ok v ∧
      (dlookup v "messages").isSome = true) ∧
    deepseekValidate none "no-such-model" [("prompt", .vStr "hi")] =
      .error (.unsupportedModel "no-such-model" (deepseekSupportedModels none)) := by
  constructor
  · exact (model_gate_and_success none "qwen-turbo" [("prompt", .vStr "hi")]).2.2.1
      rfl rfl (fun x hx => nomatch hx) (fun x hx => nomatch hx)
      (fun x hx => nomatch hx) (fun x hx => nomatch hx) (fun x hx => nomatch hx)
  · exact (model_gate_and_success none "no-such-model" [("prompt", .vStr "hi")]).2.1 rfl
